import Mathlib

/-!
Formal model of the request-authorization and browser-session gateway of the
puppeteer microservice (`server.js`): the SSRF URL validator, the
multi-strategy request authenticator with HMAC request signing, the
POST /scrape handler with its page lifecycle, and the shared browser
instance.  JavaScript strings are modelled as Lean `String`s, the JavaScript
numbers occurring here as `Int`/`Nat`, and absent values (`undefined`) as
`Option`.
-/

namespace PuppeteerGateway

/-- Models JavaScript `haystack.startsWith(pat)`. -/
def jsStartsWith (s pat : String) : Bool := decide (pat.data <+: s.data)

/-- Models JavaScript `haystack.includes(pat)` (substring containment). -/
def jsIncludes (s pat : String) : Bool := decide (pat.data <:+: s.data)

/-- Models JavaScript `s.toLowerCase()` on the ASCII inputs occurring here
(character-wise lowercasing). -/
def jsToLower (s : String) : String := String.mk (s.data.map Char.toLower)

/-- Models JavaScript truthiness of a possibly absent string value:
`undefined` and the empty string are falsy. -/
def truthy : Option String → Bool
  | none => false
  | some s => !s.isEmpty

instance {ε α : Type} [DecidableEq ε] [DecidableEq α] : DecidableEq (Except ε α) := fun x y =>
  match x, y with
  | .error a, .error b =>
    if h : a = b then isTrue (by rw [h]) else isFalse (fun hh => by cases hh; exact h rfl)
  | .ok a, .ok b =>
    if h : a = b then isTrue (by rw [h]) else isFalse (fun hh => by cases hh; exact h rfl)
  | .error _, .ok _ => isFalse (fun hh => by cases hh)
  | .ok _, .error _ => isFalse (fun hh => by cases hh)

/-- Value of a decimal digit character. -/
def digitVal (c : Char) : Nat := c.toNat - '0'.toNat

/-- Value of a hexadecimal digit character. -/
def hexDigitVal (c : Char) : Nat :=
  if c.isDigit then c.toNat - '0'.toNat
  else if decide ('a' ≤ c) && decide (c ≤ 'f') then c.toNat - 'a'.toNat + 10
  else c.toNat - 'A'.toNat + 10

/-- Recognizes a hexadecimal digit character. -/
def isHexDigit (c : Char) : Bool :=
  c.isDigit || (decide ('a' ≤ c) && decide (c ≤ 'f')) || (decide ('A' ≤ c) && decide (c ≤ 'F'))

/-- Models JavaScript `parseInt(s)` with no radix argument: leading
whitespace is skipped, an optional sign is read, a `0x`/`0X` head selects
hexadecimal, and the longest run of digits is converted; `none` models the
NaN result when no digits are found. -/
def parseIntJS (s : String) : Option Int :=
  let cs := s.data.dropWhile (fun c => c.isWhitespace)
  let signed : Int × List Char :=
    match cs with
    | '-' :: rest => (-1, rest)
    | '+' :: rest => (1, rest)
    | _ => (1, cs)
  let parsed : List Char × Nat :=
    match signed.2 with
    | '0' :: 'x' :: rest => (rest.takeWhile isHexDigit, 16)
    | '0' :: 'X' :: rest => (rest.takeWhile isHexDigit, 16)
    | other => (other.takeWhile (fun c => c.isDigit), 10)
  if parsed.1.isEmpty then none
  else
    some (signed.1 * (parsed.1.foldl
      (fun acc c => acc * (parsed.2 : Int) +
        (if parsed.2 = 16 then (hexDigitVal c : Int) else (digitVal c : Int))) 0))

/-! ## The URL parser model

`validateURL` in server.js starts with `new URL(urlString)` from Node's
`url` module, an implementation of the WHATWG URL standard.  That external
parser is modelled below on the ASCII inputs this service receives. -/

/-- Result of URL parsing as consumed by `validateURL`: Node's `url.URL`
object exposes `protocol` (the scheme with its trailing colon), `hostname`
and `href`. -/
structure ParsedURL where
  protocol : String
  hostname : String
  href : String
deriving DecidableEq, Repr

/-- The special schemes of the WHATWG URL standard. -/
def specialSchemes : List String := ["ftp", "file", "http", "https", "ws", "wss"]

/-- Characters allowed after the first character of a scheme. -/
def isSchemeChar (c : Char) : Bool := c.isAlphanum || c == '+' || c == '-' || c == '.'

/-- Code points forbidden in an unbracketed host (the subset of the WHATWG
forbidden host code points that can still occur after authority
splitting). -/
def forbiddenHostChar (c : Char) : Bool :=
  c == ' ' || c == '<' || c == '>' || c == '^' || c == '|' || c == '"'

/-- Numeric value of a digit run (used for the port bound). -/
def portVal (p : List Char) : Nat := p.foldl (fun acc c => acc * 10 + digitVal c) 0

/-- Parses the `host[:port]` portion of an authority, following the WHATWG
host parser: either a bracketed IPv6 literal, or a host that must not
contain a colon — the first colon starts the port, and an empty host before
a colon, or an empty host under a special scheme, is a parse failure (this
is exactly why `new URL("http://::1")` throws).  The port must be empty or
a decimal number at most 65535.  Hostnames are lowercased. -/
def parseHostPort (hostport : List Char) (special : Bool) : Option (String × String) :=
  match hostport with
  | '[' :: rest =>
    let inside := rest.takeWhile (fun c => c != ']')
    let after := rest.drop inside.length
    (match after with
     | ']' :: tail =>
       if inside.isEmpty then none
       else
         let host := String.mk ('[' :: (inside.map Char.toLower) ++ [']'])
         (match tail with
          | [] => some (host, "")
          | ':' :: p =>
            if ¬ (p.all fun c => c.isDigit) then none
            else if portVal p > 65535 then none
            else some (host, String.mk p)
          | _ => none)
     | _ => none)
  | _ =>
    let host := hostport.takeWhile (fun c => c != ':')
    let rest := hostport.drop host.length
    if host.any forbiddenHostChar then none
    else
      match rest with
      | ':' :: p =>
        if host.isEmpty then none
        else if ¬ (p.all fun c => c.isDigit) then none
        else if portVal p > 65535 then none
        else some (String.mk (host.map Char.toLower), String.mk p)
      | _ =>
        if host.isEmpty && special then none
        else some (String.mk (host.map Char.toLower), "")

/-- Strips the userinfo of an authority: everything through the last `@`. -/
def afterLastAt (l : List Char) : List Char :=
  if l.contains '@' then (l.reverse.takeWhile (fun c => c != '@')).reverse else l

/-- Models the WHATWG URL parser (Node's `new URL(input)` with no base) on
the ASCII inputs this service receives.  Faithful points relied on below:
an input with no `scheme:` head fails; for special schemes the slashes
after the colon are skipped and the authority runs to the next `/`, `\`,
`?` or `#`; the host is parsed by `parseHostPort` (so `http://::1` fails);
hostnames are lowercased; leading/trailing C0-or-space characters are
trimmed and interior tab/newline characters removed.  Percent-encoding,
IDNA/punycode and IPv4 numeric normalization are outside the inputs
exercised and are not modelled; the `href` serialization approximates
path normalization (no property below inspects it). -/
def parseURLModel (s : String) : Option ParsedURL :=
  let cs0 := s.data.dropWhile (fun c => decide (c ≤ ' '))
  let cs1 := (cs0.reverse.dropWhile (fun c => decide (c ≤ ' '))).reverse
  let cs := cs1.filter (fun c => c != '\t' && c != '\n' && c != '\r')
  match cs with
  | [] => none
  | c0 :: _ =>
    if ¬ c0.isAlpha then none
    else
      let schemeCs := cs.takeWhile isSchemeChar
      let rest := cs.drop schemeCs.length
      match rest with
      | ':' :: afterScheme =>
        let scheme := String.mk (schemeCs.map Char.toLower)
        if specialSchemes.contains scheme then
          let afterSlashes := afterScheme.dropWhile (fun c => c == '/' || c == '\\')
          let authority :=
            afterSlashes.takeWhile (fun c => c != '/' && c != '\\' && c != '?' && c != '#')
          let pathEtc := afterSlashes.drop authority.length
          match parseHostPort (afterLastAt authority) true with
          | none => none
          | some hp =>
            some { protocol := scheme ++ ":"
                   hostname := hp.1
                   href := scheme ++ "://" ++ hp.1 ++
                     (if hp.2.isEmpty then "" else ":" ++ hp.2) ++
                     (if pathEtc.isEmpty then "/" else String.mk pathEtc) }
        else
          match afterScheme with
          | '/' :: '/' :: rest2 =>
            let authority := rest2.takeWhile (fun c => c != '/' && c != '?' && c != '#')
            let pathEtc := rest2.drop authority.length
            match parseHostPort (afterLastAt authority) false with
            | none => none
            | some hp =>
              some { protocol := scheme ++ ":"
                     hostname := hp.1
                     href := scheme ++ "://" ++ hp.1 ++
                       (if hp.2.isEmpty then "" else ":" ++ hp.2) ++ String.mk pathEtc }
          | _ =>
            some { protocol := scheme ++ ":"
                   hostname := ""
                   href := scheme ++ ":" ++ String.mk afterScheme }
      | _ => none

/-! ## validateURL -/

/-- The distinct rejection reasons of `validateURL`.  The source throws an
`Error` at each site and rethrows it wrapped in an `Invalid URL:` message;
the four throw sites are the four constructors (`invalidFormat` is the
throw inside `new URL` itself). -/
inductive URLReject where
  | invalidFormat
  | disallowedProtocol
  | blockedHost
  | privateIPRange
deriving DecidableEq, Repr

/-- `ALLOWED_PROTOCOLS` from server.js. -/
def ALLOWED_PROTOCOLS : List String := ["http:", "https:"]

/-- `BLOCKED_HOSTS` from server.js (including the CIDR-shaped entries,
which a hostname can never equal or contain since hostnames contain no
slash). -/
def BLOCKED_HOSTS : List String :=
  ["localhost", "127.0.0.1", "0.0.0.0", "::1", "metadata.google.internal",
   "169.254.169.254", "172.16.0.0/12", "10.0.0.0/8", "192.168.0.0/16"]

/-- Models the test of the regex `10\.` / `172\.(1[6-9]|2[0-9]|3[01])\.` /
`192\.168\.` alternation anchored at the start of the hostname. -/
def privateIPMatch (h : String) : Bool :=
  jsStartsWith h "10." || jsStartsWith h "192.168." ||
    (match h.data with
     | '1' :: '7' :: '2' :: '.' :: a :: b :: '.' :: _ =>
       (a == '1' && decide ('6' ≤ b) && decide (b ≤ '9')) ||
       (a == '2' && b.isDigit) ||
       (a == '3' && (b == '0' || b == '1'))
     | _ => false)

/-- Embeds `validateURL` from server.js: parse the URL, check the protocol
allowlist, check the hostname (lowercased) against `BLOCKED_HOSTS` by
equality or substring containment, then check the private-IP regex. -/
def validateURL (urlString : String) : Except URLReject ParsedURL :=
  match parseURLModel urlString with
  | none => .error .invalidFormat
  | some url =>
    if ¬ ALLOWED_PROTOCOLS.contains url.protocol then .error .disallowedProtocol
    else
      let hostname := jsToLower url.hostname
      if BLOCKED_HOSTS.any (fun b => hostname == b || jsIncludes hostname b) then
        .error .blockedHost
      else if privateIPMatch hostname then .error .privateIPRange
      else .ok url

example : validateURL "http://::1" = .error .invalidFormat := by decide
example : validateURL "http://localhost" = .error .blockedHost := by decide
example : validateURL "http://127.0.0.1" = .error .blockedHost := by decide
example : validateURL "http://0.0.0.0" = .error .blockedHost := by decide
example : validateURL "http://metadata.google.internal" = .error .blockedHost := by decide
example : validateURL "http://169.254.169.254" = .error .blockedHost := by decide
example : validateURL "http://169.254.169.254/" = .error .blockedHost := by decide
example : validateURL "ftp://example.com" = .error .disallowedProtocol := by decide
example : validateURL "http://10.1.2.3" = .error .privateIPRange := by decide
example : validateURL "http://172.17.0.1/x" = .error .privateIPRange := by decide
example : (validateURL "https://example.com/a?b=1").isOk = true := by decide
example : validateURL "https://example.com" =
    .ok { protocol := "https:", hostname := "example.com", href := "https://example.com/" } := by
  decide
example : validateURL "not a url" = .error .invalidFormat := by decide

/-! ## Request signing and authentication -/

/-- The five-minute replay window (milliseconds), `5 * 60 * 1000`. -/
def fiveMinutes : Int := 5 * 60 * 1000

/-- The string `timestamp:nonce:extensionId` handed to the HMAC. -/
def signMessage (timestamp nonce extensionId : String) : String :=
  timestamp ++ ":" ++ nonce ++ ":" ++ extensionId

/-- Embeds `verifyRequestSignature` from server.js.  The HMAC-SHA256
primitive (`crypto.createHmac("sha256", SERVER_SECRET). ... .digest("hex")`)
is an external library call, abstracted as a function `hmac` from message
to hex digest with the server secret baked in.  A JavaScript detail kept:
`Math.abs(now - parseInt(timestamp))` is NaN for an unparsable timestamp
and NaN comparisons are false, so the staleness early return is not taken
in that case. -/
def verifyRequestSignature (hmac : String → String) (now : Int)
    (timestamp nonce signatureHeader extensionId : String) : Bool :=
  let stale : Bool :=
    match parseIntJS timestamp with
    | some requestTime => decide (fiveMinutes < |now - requestTime|)
    | none => false
  if stale then false
  else signatureHeader == hmac (signMessage timestamp nonce extensionId)

/-- The identifying signals of an inbound request as read in
`authenticateRequest`: `req.path`, the listed headers, and the resolved
client IP (`req.ip || req.connection.remoteAddress ||
req.socket.remoteAddress`, collapsed into one optional value). -/
structure AuthReq where
  path : String
  origin : Option String := none
  referer : Option String := none
  userAgent : Option String := none
  forwardedFor : Option String := none
  realIP : Option String := none
  clientIP : Option String := none
  timestamp : Option String := none
  nonce : Option String := none
  signatureHeader : Option String := none
deriving DecidableEq, Repr

/-- `ALLOWED_ORIGINS` from server.js. -/
def ALLOWED_ORIGINS : List String :=
  ["https://us-central1-clicksafe-374816.cloudfunctions.net"]

/-- `ALLOWED_IPS` from server.js. -/
def ALLOWED_IPS : List String := ["176.136.146.11"]

/-- `ALLOWED_EXTENSION_IDS` from server.js (the default value of the
`CHROME_EXTENSION_ID` environment variable). -/
def ALLOWED_EXTENSION_IDS : List String := ["ojgppiocgnfkdafnikkiliekbmmagome"]

/-- Models `ALLOWED_IPS.includes(x)` where `x` may be undefined. -/
def optAllowedIP : Option String → Bool
  | none => false
  | some v => ALLOWED_IPS.contains v

/-- Embeds the expression computed (twice, verbatim) in the source as
`isFromAllowedDevIP` and as `isFromAllowedIP`: the client IP or the
`X-Real-IP` equals an allowlisted IP, or the `X-Forwarded-For` value
contains an allowlisted IP as a substring. -/
def isFromAllowedIP (r : AuthReq) : Bool :=
  optAllowedIP r.clientIP || optAllowedIP r.realIP ||
    (truthy r.forwardedFor &&
      ALLOWED_IPS.any (fun ip => jsIncludes (r.forwardedFor.getD "") ip))

/-- The scheme head of extension origins. -/
def chromeExtScheme : String := "chrome-extension://"

/-- Extension id extraction:
`origin.replace("chrome-extension://", "").split("/")[0]` — under the guard
that the origin starts with the scheme head, `replace` drops it, and the
first `split("/")` segment is the run of characters before any slash. -/
def extensionIdOf (origin : String) : String :=
  String.mk ((origin.data.drop chromeExtScheme.data.length).takeWhile (fun c => c != '/'))

/-- Embeds the chrome-extension strategy block of `authenticateRequest`:
the origin must carry the extension scheme; the extracted id must be
allowlisted or the caller must come from an allowlisted developer IP; if
all three signature headers are present (and truthy) the signature must
verify, otherwise the id/IP check alone suffices. -/
def isValidChromeExtension (hmac : String → String) (now : Int) (r : AuthReq) : Bool :=
  match r.origin with
  | none => false
  | some origin =>
    if jsStartsWith origin chromeExtScheme then
      let extensionId := extensionIdOf origin
      if ALLOWED_EXTENSION_IDS.contains extensionId || isFromAllowedIP r then
        if truthy r.timestamp && truthy r.nonce && truthy r.signatureHeader then
          verifyRequestSignature hmac now (r.timestamp.getD "") (r.nonce.getD "")
            (r.signatureHeader.getD "") extensionId
        else true
      else false
    else false

/-- Origin-allowlist strategy: the `Origin` header starts with a trusted
origin. -/
def isValidOrigin (r : AuthReq) : Bool :=
  truthy r.origin && ALLOWED_ORIGINS.any (fun a => jsStartsWith (r.origin.getD "") a)

/-- Referer-allowlist strategy: the `Referer` header starts with a trusted
origin. -/
def isValidReferer (r : AuthReq) : Bool :=
  truthy r.referer && ALLOWED_ORIGINS.any (fun a => jsStartsWith (r.referer.getD "") a)

/-- Heuristic strategy: the `User-Agent` contains the cloud-function
marker. -/
def isGoogleCloudFunction (r : AuthReq) : Bool :=
  truthy r.userAgent && jsIncludes (r.userAgent.getD "") "Google-Cloud-Functions"

/-- Heuristic strategy: the `X-Forwarded-For` value contains `169.254.` or
`10.` anywhere as a substring. -/
def isFromGoogleCloud (r : AuthReq) : Bool :=
  truthy r.forwardedFor &&
    (jsIncludes (r.forwardedFor.getD "") "169.254." ||
      jsIncludes (r.forwardedFor.getD "") "10.")

/-- Embeds the `authenticateRequest` middleware: `/health` and `/` bypass
the gate; otherwise the request is allowed unless every strategy flag is
false.  `true` models calling `next()`, `false` the 403 response. -/
def authenticateRequest (hmac : String → String) (now : Int) (r : AuthReq) : Bool :=
  if r.path == "/health" || r.path == "/" then true
  else
    let a := isValidChromeExtension hmac now r
    let b := isValidOrigin r
    let c := isValidReferer r
    let d := isFromAllowedIP r
    let e := isGoogleCloudFunction r
    let f := isFromGoogleCloud r
    if !a && !b && !c && !d && !e && !f then false else true

/-! ## The POST /scrape handler -/

/-- Counters and page state accumulated while a /scrape request runs:
browser launches, pages opened (`browser.newPage()`), navigation attempts
(`page.goto`), pages closed (`page.close()`), and whether a page is
currently open and not closed (`page && !page.isClosed()`). -/
structure Trace where
  launches : Nat := 0
  pagesOpened : Nat := 0
  navigations : Nat := 0
  closes : Nat := 0
  pageOpen : Bool := false
deriving DecidableEq, Repr

/-- The response bodies the /scrape handler can produce.  The source
attaches an `error.message` details string to the catch-all body; no
property below inspects it, so it is not carried. -/
inductive ScrapeBody where
  | errUrlRequired
  | errScrapeFailed
  | errDuringScraping
  | errCloudflare
  | errTooShort
  | errForbidden
  | okData (text : String)
deriving DecidableEq, Repr

/-- The observable outcome of one /scrape request. -/
structure ScrapeOutcome where
  status : Nat
  body : ScrapeBody
  trace : Trace
deriving DecidableEq, Repr

/-- What the external browser engine does for this request: whether
`browser.newPage()` throws, whether the configuration calls
(`setViewport` / `setUserAgent` / `setRequestInterception`) throw, whether
`page.goto` throws (navigation error or timeout), and what
`page.evaluate(body.innerText)` produces — `none` models the evaluate call
throwing, `some none` models it resolving to `undefined`, `some (some t)`
to the text `t`. -/
structure BrowserOracle where
  newPageThrows : Bool := false
  configThrows : Bool := false
  gotoThrows : Bool := false
  evaluateResult : Option (Option String) := some (some "")
deriving DecidableEq, Repr

/-- Embeds the regex test `/cloudflare|CLOUDFLARE|Cloudflare/.test(text)`:
one of the three exact casings occurs as a substring.  (The regex has no
case-insensitive flag.) -/
def isCloudflareProtected (text : String) : Bool :=
  jsIncludes text "cloudflare" || jsIncludes text "CLOUDFLARE" ||
    jsIncludes text "Cloudflare"

/-- Embeds the `try` block of the /scrape handler, statement by statement,
threading the trace.  An `Except.error` result models a thrown exception
reaching the handler's `catch`; an `Except.ok` result models an explicit
`res.⋯; return` exit.  `connected` models
`browserInstance && browserInstance.isConnected()` at entry, so
`getBrowser()` launches exactly when it is false.  The `!textContent`
check is truthiness: it fires on `undefined` and on the empty string. -/
def tryScrape (connected : Bool) (o : BrowserOracle) (urlField : Option String)
    (tr : Trace) : Except Unit (Nat × ScrapeBody) × Trace :=
  match urlField with
  | none => (.ok (400, .errUrlRequired), tr)
  | some url =>
    match validateURL url with
    | .error _ => (.error (), tr)
    | .ok _validatedURL =>
      let tr := if connected then tr else { tr with launches := tr.launches + 1 }
      if o.newPageThrows then (.error (), tr)
      else
        let tr := { tr with pagesOpened := tr.pagesOpened + 1, pageOpen := true }
        if o.configThrows then (.error (), tr)
        else if o.gotoThrows then
          (.error (), { tr with navigations := tr.navigations + 1 })
        else
          let tr := { tr with navigations := tr.navigations + 1 }
          match o.evaluateResult with
          | none => (.error (), tr)
          | some textContentOpt =>
            let textContent := textContentOpt.getD ""
            if textContent.isEmpty then (.ok (500, .errDuringScraping), tr)
            else
              let tr := { tr with closes := tr.closes + 1, pageOpen := false }
              if isCloudflareProtected textContent then (.ok (406, .errCloudflare), tr)
              else if textContent.length < 10000 then (.ok (406, .errTooShort), tr)
              else (.ok (200, .okData textContent), tr)

/-- Embeds the whole /scrape handler: run the `try` block; on a thrown
error, the `catch` closes the page if one is open and not closed, and
responds 500. -/
def handleScrape (connected : Bool) (o : BrowserOracle)
    (urlField : Option String) : ScrapeOutcome :=
  match tryScrape connected o urlField {} with
  | (.ok sb, tr) => { status := sb.1, body := sb.2, trace := tr }
  | (.error _, tr) =>
    let tr := if tr.pageOpen then { tr with closes := tr.closes + 1, pageOpen := false } else tr
    { status := 500, body := .errScrapeFailed, trace := tr }

/-- The /scrape route as seen from outside: the `authenticateRequest`
middleware gate runs first (a denial is a 403 response and the handler
never runs), then the handler. -/
def scrapePipeline (hmac : String → String) (now : Int) (r : AuthReq)
    (connected : Bool) (o : BrowserOracle) (urlField : Option String) : ScrapeOutcome :=
  if authenticateRequest hmac now r then handleScrape connected o urlField
  else { status := 403, body := .errForbidden, trace := {} }

/-! ## The shared browser instance (`getBrowser`)

`getBrowser` reads the module-level `browserInstance`, and when it is null
or disconnected it calls `puppeteer.launch(...)` and — only after the
awaited promise resolves — assigns the new instance.  Concurrent calls are
modelled as a small interleaving machine: each call is a task that takes
two atomic steps, the synchronous prefix up to and including the launch
call (`check`), and the post-`await` resumption that performs the
assignment. -/

/-- Progress of one `getBrowser()` call: `start` = not yet run; `launching`
= it observed no connected instance, called `puppeteer.launch` and is
suspended at the `await`; `done` = it returned. -/
inductive CallPhase where
  | start
  | launching
  | done
deriving DecidableEq, Repr

/-- Shared state: the module-level `browserInstance` (`some id` is a live,
connected engine; no disconnection events are modelled), the number of
`puppeteer.launch` calls performed, and each task's phase. -/
structure RaceState where
  browser : Option Nat
  launchCount : Nat
  phases : List CallPhase
deriving DecidableEq, Repr

/-- One scheduler step running task `i`.  A `start` task atomically checks
`!browserInstance || !browserInstance.isConnected()`: if an instance is
connected it returns it (`done`), otherwise it calls `puppeteer.launch`
(counted here, since the launch starts before the promise resolves) and
suspends.  A `launching` task resumes from the `await` and assigns
`browserInstance`. -/
def raceStep (s : RaceState) (i : Nat) : RaceState :=
  match s.phases.getD i .done with
  | .start =>
    if s.browser.isSome then { s with phases := s.phases.set i .done }
    else { s with launchCount := s.launchCount + 1, phases := s.phases.set i .launching }
  | .launching =>
    { s with browser := some s.launchCount, phases := s.phases.set i .done }
  | .done => s

/-- Runs a schedule (a list of task indices) over `n` fresh `getBrowser()`
calls starting with no browser instance. -/
def runSchedule (n : Nat) (sched : List Nat) : RaceState :=
  sched.foldl raceStep { browser := none, launchCount := 0, phases := List.replicate n .start }

/-- A fully sequential schedule: each call runs both of its steps to
completion before the next call starts. -/
def seqSchedule (n : Nat) : List Nat := (List.range n).flatMap (fun i => [i, i])

/-! ## Helper lemmas -/

/-- A substring check fails whenever some character of the pattern does not
occur in the searched string at all. -/
theorem jsIncludes_eq_false_of_missing_char (s pat : String) (c : Char)
    (hc : c ∈ pat.data) (hs : c ∉ s.data) : jsIncludes s pat = false := by
  unfold jsIncludes
  exact decide_eq_false (fun h => hs (h.subset hc))

/-- No character other than `'a'` occurs in a replicate-of-`'a'` list. -/
theorem not_mem_replicate_a (c : Char) (hc : c ≠ 'a') (n : Nat) :
    c ∉ List.replicate n 'a' :=
  fun h => hc (List.eq_of_mem_replicate h)

/-- A text consisting only of `'a'`s never triggers the bot-protection test. -/
theorem replicate_a_not_protected (n : Nat) :
    isCloudflareProtected (String.mk (List.replicate n 'a')) = false := by
  unfold isCloudflareProtected
  rw [jsIncludes_eq_false_of_missing_char _ _ 'c' (by decide)
        (not_mem_replicate_a 'c' (by decide) n),
      jsIncludes_eq_false_of_missing_char _ _ 'C' (by decide)
        (not_mem_replicate_a 'C' (by decide) n),
      jsIncludes_eq_false_of_missing_char _ _ 'C' (by decide)
        (not_mem_replicate_a 'C' (by decide) n)]
  rfl

/-- The sign message determines its timestamp component (the other two
components held fixed). -/
theorem signMessage_ts_inj {a b n e : String}
    (h : signMessage a n e = signMessage b n e) : a = b := by
  apply String.ext
  have hd := congrArg String.data h
  simp only [signMessage, String.data_append] at hd
  exact List.append_cancel_right (List.append_cancel_right
    (List.append_cancel_right (List.append_cancel_right hd)))

/-- The sign message determines its nonce component. -/
theorem signMessage_nonce_inj {t a b e : String}
    (h : signMessage t a e = signMessage t b e) : a = b := by
  apply String.ext
  have hd := congrArg String.data h
  simp only [signMessage, String.data_append] at hd
  exact List.append_cancel_left
    (List.append_cancel_right (List.append_cancel_right hd))

/-- The sign message determines its extension-id component. -/
theorem signMessage_ext_inj {t n a b : String}
    (h : signMessage t n a = signMessage t n b) : a = b := by
  apply String.ext
  have hd := congrArg String.data h
  simp only [signMessage, String.data_append] at hd
  exact List.append_cancel_left hd

/-- Evaluation of the /scrape handler on a nonempty, fingerprint-free text
of accepted length (stated generically so instances at large concrete
texts need no ground evaluation). -/
theorem handleScrape_accepts_aux (t : String) (hnp : isCloudflareProtected t = false)
    (hemp : t.isEmpty = false) (hlen : ¬ t.length < 10000) :
    (handleScrape true { evaluateResult := some (some t) }
      (some "https://example.com")).status = 200
    ∧ (handleScrape true { evaluateResult := some (some t) }
      (some "https://example.com")).body = .okData t := by
  have hval : validateURL "https://example.com" =
      .ok { protocol := "https:", hostname := "example.com", href := "https://example.com/" } := by
    decide
  constructor <;> simp [handleScrape, tryScrape, hval, hnp, hemp, hlen]

/-- Browser-ready states are preserved by any further schedule: once a
connected instance exists no step launches again. -/
theorem runFold_preserves (l : List Nat) (s : RaceState) (h : s.browser.isSome = true) :
    (l.foldl raceStep s).launchCount = s.launchCount ∧
      (l.foldl raceStep s).browser.isSome = true := by
  induction l generalizing s with
  | nil => exact ⟨rfl, h⟩
  | cons i l ih =>
    have hstep : (raceStep s i).launchCount = s.launchCount ∧
        (raceStep s i).browser.isSome = true := by
      unfold raceStep
      cases hp : s.phases.getD i .done <;> simp [hp, h]
    simp only [List.foldl_cons]
    obtain ⟨h1, h2⟩ := ih (raceStep s i) hstep.2
    exact ⟨h1.trans hstep.1, h2⟩

/-! ## The claims -/

/-- C1: the /scrape handler is claimed to close the page exactly once on
every exit path on which a page was opened, including the path where
extraction returns empty/undefined text.  The code violates this on
exactly that path: when `page.evaluate` resolves to `undefined` (and
likewise to the empty string), the handler returns the 500 "error occurred
during scraping" response before the `await page.close()` statement and
outside any `catch`, leaving the page open with zero closes — while a
thrown navigation error and a policy rejection do close the page exactly
once, as the last two conjuncts contrast. -/
theorem scrape_empty_text_skips_close :
    (handleScrape true { evaluateResult := some none } (some "https://example.com")).status = 500
    ∧ (handleScrape true { evaluateResult := some none }
        (some "https://example.com")).trace.pagesOpened = 1
    ∧ (handleScrape true { evaluateResult := some none }
        (some "https://example.com")).trace.closes = 0
    ∧ (handleScrape true { evaluateResult := some none }
        (some "https://example.com")).trace.pageOpen = true
    ∧ (handleScrape true { gotoThrows := true } (some "https://example.com")).trace.closes = 1
    ∧ (handleScrape true { evaluateResult := some (some "Cloudflare") }
        (some "https://example.com")).trace.closes = 1 := by
  decide

/-- C5 counterexample: a POST /scrape whose url is a disallowed (blocked
host) URL is answered with status 500, not with a 400/403-class client
error as claimed: `validateURL` throws, and the handler's catch-all maps
every thrown error to 500. -/
theorem scrape_blocked_url_returns_500 :
    (handleScrape true {} (some "http://localhost")).status = 500
    ∧ (handleScrape true {} (some "http://localhost")).body = .errScrapeFailed
    ∧ (handleScrape true {} (some "http://localhost")).status ≠ 400
    ∧ (handleScrape true {} (some "http://localhost")).status ≠ 403 := by
  decide

/-- C5 amended: every POST /scrape whose url fails validation (malformed,
disallowed protocol, blocked host, or private IP range) is answered with
the 500 generic scrape-failure response; only a missing url yields 400 and
only an authentication denial yields 403. -/
theorem scrape_validation_failure_returns_500 (connected : Bool) (o : BrowserOracle)
    (url : String) (e : URLReject) (h : validateURL url = .error e) :
    (handleScrape connected o (some url)).status = 500
    ∧ (handleScrape connected o (some url)).body = .errScrapeFailed := by
  simp [handleScrape, tryScrape, h]

/-- C5 amended, witness at the private-range url `http://10.0.0.7`. -/
theorem scrape_validation_failure_returns_500_witness :
    validateURL "http://10.0.0.7" = .error .privateIPRange
    ∧ ((handleScrape false {} (some "http://10.0.0.7")).status = 500
      ∧ (handleScrape false {} (some "http://10.0.0.7")).body = .errScrapeFailed) :=
  ⟨by decide,
   scrape_validation_failure_returns_500 false {} "http://10.0.0.7" .privateIPRange (by decide)⟩

/-- C7 counterexample: for the blocked-host entry `::1`, the claim that
`validate("http://" + hostname)` rejects with the BlockedHost kind fails:
`http://::1` is not a parseable URL (the WHATWG host parser reads the text
before the first colon as an empty host), so `new URL` throws first and
the rejection kind is InvalidFormat. -/
theorem validate_ipv6_loopback_parse_failure :
    validateURL "http://::1" = .error .invalidFormat
    ∧ validateURL "http://::1" ≠ .error .blockedHost := by
  decide

/-- C7 amended: for the five parseable blocked hostnames the rejection kind
is BlockedHost; for `::1` the URL fails to parse and the kind is
InvalidFormat. -/
theorem validate_blocked_hosts_classification :
    validateURL "http://localhost" = .error .blockedHost
    ∧ validateURL "http://127.0.0.1" = .error .blockedHost
    ∧ validateURL "http://0.0.0.0" = .error .blockedHost
    ∧ validateURL "http://metadata.google.internal" = .error .blockedHost
    ∧ validateURL "http://169.254.169.254" = .error .blockedHost
    ∧ validateURL "http://::1" = .error .invalidFormat := by
  decide

/-- C10 counterexample: two concurrent `getBrowser()` calls that both pass
the `!browserInstance || !browserInstance.isConnected()` check before
either assignment happens (the natural Node interleaving: each runs its
synchronous prefix up to the `await puppeteer.launch`, then the awaits
resolve) perform two launches, not exactly one. -/
theorem getBrowser_concurrent_double_launch :
    (runSchedule 2 [0, 1, 0, 1]).launchCount = 2
    ∧ (runSchedule 2 [0, 1, 0, 1]).phases = [.done, .done] := by
  decide

/-- C10 amended: exactly one launch is guaranteed only when no call's
connectivity check interleaves with another call's pending launch — e.g.
under a fully sequential schedule, any number of `getBrowser()` calls
starting from no instance perform exactly one launch. -/
theorem getBrowser_sequential_single_launch (n : Nat) (hn : 1 ≤ n) :
    (runSchedule n (seqSchedule n)).launchCount = 1 := by
  obtain ⟨m, rfl⟩ : ∃ m, n = m + 1 := ⟨n - 1, (Nat.succ_pred_eq_of_pos hn).symm⟩
  unfold runSchedule seqSchedule
  rw [List.range_succ_eq_map, List.flatMap_cons, List.foldl_append]
  have h2 : ([0, 0] : List Nat).foldl raceStep
      { browser := none, launchCount := 0, phases := List.replicate (m + 1) .start } =
      { browser := some 1, launchCount := 1, phases := .done :: List.replicate m .start } := rfl
  rw [h2]
  exact (runFold_preserves _ _ (by rfl)).1

/-- C10 amended, witness at three sequential calls. -/
theorem getBrowser_sequential_single_launch_witness :
    1 ≤ 3 ∧ (runSchedule 3 (seqSchedule 3)).launchCount = 1 :=
  ⟨by decide, getBrowser_sequential_single_launch 3 (by decide)⟩

/-- C2: for a timestamp string carrying the numeric value `t`,
`verifyRequestSignature` returns true iff `|now − t| ≤ 5` minutes and the
signature equals the HMAC digest of `timestamp:nonce:extensionId`; a stale
timestamp is rejected even when the HMAC matches exactly; and — granting
injectivity of the HMAC on these messages — changing any one of the
timestamp, the nonce, the extension id, or the signature bytes of a
matching signature makes verification fail. -/
theorem verifyRequestSignature_correct
    (hmac : String → String) (hinj : Function.Injective hmac)
    (now t : Int) (ts nonce extId sig : String)
    (hts : parseIntJS ts = some t) :
    (verifyRequestSignature hmac now ts nonce sig extId = true ↔
      |now - t| ≤ fiveMinutes ∧ sig = hmac (signMessage ts nonce extId))
    ∧ (fiveMinutes < |now - t| →
        verifyRequestSignature hmac now ts nonce sig extId = false)
    ∧ (sig = hmac (signMessage ts nonce extId) →
        (∀ ts2, ts2 ≠ ts → verifyRequestSignature hmac now ts2 nonce sig extId = false)
        ∧ (∀ n2, n2 ≠ nonce → verifyRequestSignature hmac now ts n2 sig extId = false)
        ∧ (∀ e2, e2 ≠ extId → verifyRequestSignature hmac now ts nonce sig e2 = false))
    ∧ (∀ s2, s2 ≠ hmac (signMessage ts nonce extId) →
        verifyRequestSignature hmac now ts nonce s2 extId = false) := by
  have hbody : ∀ ts2 nonce2 sig2 extId2 : String,
      verifyRequestSignature hmac now ts2 nonce2 sig2 extId2 = true →
      sig2 = hmac (signMessage ts2 nonce2 extId2) := by
    intro ts2 nonce2 sig2 extId2 hv
    unfold verifyRequestSignature at hv
    rcases hp : parseIntJS ts2 with _ | t2 <;> rw [hp] at hv
    · simpa using hv
    · by_cases hw : fiveMinutes < |now - t2|
      · simp [hw] at hv
      · simpa [hw] using hv
  refine ⟨?_, ?_, ?_, ?_⟩
  · unfold verifyRequestSignature
    rw [hts]
    by_cases hw : fiveMinutes < |now - t|
    · simp [hw]
    · simp [hw, not_lt.mp hw]
  · intro hw
    unfold verifyRequestSignature
    rw [hts]
    simp [hw]
  · intro hsig
    refine ⟨?_, ?_, ?_⟩
    · intro ts2 hne
      by_contra hv
      rw [Bool.not_eq_false] at hv
      have h2 := hbody ts2 nonce sig extId hv
      exact hne (signMessage_ts_inj (hinj (h2.symm.trans hsig)))
    · intro n2 hne
      by_contra hv
      rw [Bool.not_eq_false] at hv
      have h2 := hbody ts n2 sig extId hv
      exact hne (signMessage_nonce_inj (hinj (h2.symm.trans hsig)))
    · intro e2 hne
      by_contra hv
      rw [Bool.not_eq_false] at hv
      have h2 := hbody ts nonce sig e2 hv
      exact hne (signMessage_ext_inj (hinj (h2.symm.trans hsig)))
  · intro s2 hne
    by_contra hv
    rw [Bool.not_eq_false] at hv
    exact hne (hbody ts nonce s2 extId hv)

/-- C2, witness at the identity HMAC, `now = 0` and timestamp `"0"`. -/
theorem verifyRequestSignature_correct_witness :
    (verifyRequestSignature id 0 "0" "n" "s" "e" = true ↔
      |(0 : Int) - 0| ≤ fiveMinutes ∧ "s" = id (signMessage "0" "n" "e"))
    ∧ (fiveMinutes < |(0 : Int) - 0| →
        verifyRequestSignature id 0 "0" "n" "s" "e" = false)
    ∧ ("s" = id (signMessage "0" "n" "e") →
        (∀ ts2, ts2 ≠ "0" → verifyRequestSignature id 0 ts2 "n" "s" "e" = false)
        ∧ (∀ n2, n2 ≠ "n" → verifyRequestSignature id 0 "0" n2 "s" "e" = false)
        ∧ (∀ e2, e2 ≠ "e" → verifyRequestSignature id 0 "0" "n" "s" e2 = false))
    ∧ (∀ s2, s2 ≠ id (signMessage "0" "n" "e") →
        verifyRequestSignature id 0 "0" "n" s2 "e" = false) :=
  verifyRequestSignature_correct id Function.injective_id 0 0 "0" "n" "e" "s" (by decide)

/-- The text used to refute the any-casing claim: `CloudFlare` (mixed
casing) followed by enough ordinary content to pass the length policy. -/
def mixedCaseText : String := "CloudFlare" ++ String.mk (List.replicate 9990 'a')

/-- C8 counterexample: an extracted text containing `CloudFlare` — a
casing of the vendor name not among the three literal alternatives of the
regex `/cloudflare|CLOUDFLARE|Cloudflare/` — is not classified as
bot-protected: with 10000 characters it is accepted and the /scrape
response is 200 with the text as data, not the claimed 406. -/
theorem cloudflare_mixed_case_not_detected :
    isCloudflareProtected mixedCaseText = false
    ∧ mixedCaseText.length = 10000
    ∧ (handleScrape true { evaluateResult := some (some mixedCaseText) }
        (some "https://example.com")).status = 200
    ∧ (handleScrape true { evaluateResult := some (some mixedCaseText) }
        (some "https://example.com")).body = .okData mixedCaseText := by
  have hdata : mixedCaseText.data = "CloudFlare".data ++ List.replicate 9990 'a' := rfl
  have hnp : isCloudflareProtected mixedCaseText = false := by
    unfold isCloudflareProtected
    rw [jsIncludes_eq_false_of_missing_char _ _ 'c' (by decide) ?hc,
        jsIncludes_eq_false_of_missing_char _ _ 'L' (by decide) ?hL,
        jsIncludes_eq_false_of_missing_char _ _ 'f' (by decide) ?hf]
    rfl
    case hc =>
      rw [hdata]
      intro h
      rcases List.mem_append.mp h with h | h
      · exact absurd h (by decide)
      · exact absurd (List.eq_of_mem_replicate h) (by decide)
    case hL =>
      rw [hdata]
      intro h
      rcases List.mem_append.mp h with h | h
      · exact absurd h (by decide)
      · exact absurd (List.eq_of_mem_replicate h) (by decide)
    case hf =>
      rw [hdata]
      intro h
      rcases List.mem_append.mp h with h | h
      · exact absurd h (by decide)
      · exact absurd (List.eq_of_mem_replicate h) (by decide)
  have hlen : mixedCaseText.length = 10000 := by
    show mixedCaseText.data.length = 10000
    rw [hdata, List.length_append, List.length_replicate]
    decide
  have hemp : mixedCaseText.isEmpty = false := by
    rw [Bool.eq_false_iff]
    intro h
    have he : mixedCaseText = "" := (String.isEmpty_iff _).mp h
    rw [he] at hlen
    exact absurd hlen (by decide)
  have hge : ¬ mixedCaseText.length < 10000 := by
    rw [hlen]
    exact Nat.lt_irrefl 10000
  exact ⟨hnp, hlen, (handleScrape_accepts_aux mixedCaseText hnp hemp hge).1,
    (handleScrape_accepts_aux mixedCaseText hnp hemp hge).2⟩

/-- C8 amended: the bot-protection classification fires exactly when one of
the three literal casings `cloudflare`, `CLOUDFLARE`, `Cloudflare` occurs
as a substring of the extracted text (the regex has no case-insensitive
flag), and on any such nonempty text the /scrape response is the distinct
406 bot-protection outcome. -/
theorem cloudflare_exact_casings_detected (t : String) (hne : t ≠ "")
    (hcf : jsIncludes t "cloudflare" = true ∨ jsIncludes t "CLOUDFLARE" = true ∨
      jsIncludes t "Cloudflare" = true) :
    isCloudflareProtected t = true
    ∧ (handleScrape true { evaluateResult := some (some t) }
        (some "https://example.com")).status = 406
    ∧ (handleScrape true { evaluateResult := some (some t) }
        (some "https://example.com")).body = .errCloudflare := by
  have hp : isCloudflareProtected t = true := by
    unfold isCloudflareProtected
    rcases hcf with h | h | h <;> simp [h]
  have hemp : t.isEmpty = false := by
    rw [Bool.eq_false_iff]
    intro h
    exact hne ((String.isEmpty_iff _).mp h)
  have hval : validateURL "https://example.com" =
      .ok { protocol := "https:", hostname := "example.com", href := "https://example.com/" } := by
    decide
  refine ⟨hp, ?_, ?_⟩ <;>
    simp [handleScrape, tryScrape, hval, hp, hemp]

/-- C8 amended, witness at a short text in the exact casing `Cloudflare`. -/
theorem cloudflare_exact_casings_detected_witness :
    isCloudflareProtected "Cloudflare checkpoint" = true
    ∧ (handleScrape true { evaluateResult := some (some "Cloudflare checkpoint") }
        (some "https://example.com")).status = 406
    ∧ (handleScrape true { evaluateResult := some (some "Cloudflare checkpoint") }
        (some "https://example.com")).body = .errCloudflare :=
  cloudflare_exact_casings_detected "Cloudflare checkpoint" (by decide)
    (Or.inr (Or.inr (by decide)))

/-- C9: for an extracted text free of the bot-protection fingerprint, a
length of 9999 — strictly below the 10000 minimum — yields the 406
too-short rejection, and a length of at least 10000 yields the 200
response with the text as the data field. -/
theorem scrape_length_policy :
    (∀ t : String, isCloudflareProtected t = false → t.length = 9999 →
      (handleScrape true { evaluateResult := some (some t) }
        (some "https://example.com")).status = 406
      ∧ (handleScrape true { evaluateResult := some (some t) }
        (some "https://example.com")).body = .errTooShort)
    ∧ (∀ t : String, isCloudflareProtected t = false → 10000 ≤ t.length →
      (handleScrape true { evaluateResult := some (some t) }
        (some "https://example.com")).status = 200
      ∧ (handleScrape true { evaluateResult := some (some t) }
        (some "https://example.com")).body = .okData t) := by
  have hval : validateURL "https://example.com" =
      .ok { protocol := "https:", hostname := "example.com", href := "https://example.com/" } := by
    decide
  constructor
  · intro t hnp hlen
    have hemp : t.isEmpty = false := by
      rw [Bool.eq_false_iff]
      intro h
      rw [(String.isEmpty_iff _).mp h] at hlen
      exact absurd hlen (by decide)
    constructor <;> simp [handleScrape, tryScrape, hval, hnp, hemp, hlen]
  · intro t hnp hlen
    have hemp : t.isEmpty = false := by
      rw [Bool.eq_false_iff]
      intro h
      rw [(String.isEmpty_iff _).mp h] at hlen
      exact absurd hlen (by decide)
    constructor <;> simp [handleScrape, tryScrape, hval, hnp, hemp, Nat.not_lt.mpr hlen]

/-- A fixed HMAC stand-in used for concrete instantiations. -/
def constHmac : String → String := fun _ => "hmac"

/-- C3: on an enforced path the request is allowed iff at least one of the
strategies succeeds — a logical OR over the independently computed flags,
not first-match-wins; in particular a request whose client IP is
allowlisted is allowed no matter what the other signals say, and a
chrome-extension origin presenting an invalid signature is not allowed by
the chrome-extension strategy itself (so such a request is allowed exactly
via the other strategies). -/
theorem authenticateRequest_logical_or
    (hmac : String → String) (now : Int) (r : AuthReq)
    (h1 : r.path ≠ "/health") (h2 : r.path ≠ "/") :
    (authenticateRequest hmac now r = true ↔
      (isValidChromeExtension hmac now r = true ∨ isValidOrigin r = true ∨
       isValidReferer r = true ∨ isFromAllowedIP r = true ∨
       isGoogleCloudFunction r = true ∨ isFromGoogleCloud r = true))
    ∧ (∀ ip, r.clientIP = some ip → ALLOWED_IPS.contains ip = true →
        authenticateRequest hmac now r = true)
    ∧ (∀ o2, r.origin = some o2 → jsStartsWith o2 chromeExtScheme = true →
        truthy r.timestamp = true → truthy r.nonce = true →
        truthy r.signatureHeader = true →
        verifyRequestSignature hmac now (r.timestamp.getD "") (r.nonce.getD "")
          (r.signatureHeader.getD "") (extensionIdOf o2) = false →
        isValidChromeExtension hmac now r = false) := by
  have hpath : (r.path == "/health" || r.path == "/") = false := by
    simp [h1, h2]
  refine ⟨?_, ?_, ?_⟩
  · simp only [authenticateRequest]
    rw [hpath]
    cases ha : isValidChromeExtension hmac now r <;>
      cases hb : isValidOrigin r <;>
        cases hc : isValidReferer r <;>
          cases hd : isFromAllowedIP r <;>
            cases he : isGoogleCloudFunction r <;>
              cases hf : isFromGoogleCloud r <;> simp
  · intro ip hip hmem
    have hd : isFromAllowedIP r = true := by
      simp [isFromAllowedIP, optAllowedIP, hip]
      exact Or.inl (Or.inl (by simpa using hmem))
    simp only [authenticateRequest]
    rw [hpath]
    simp [hd]
  · intro o2 ho hstart ht hn hs hv
    simp [isValidChromeExtension, ho, hstart, ht, hn, hs, hv]

/-- The request used to instantiate C3: allowlisted client IP together
with a non-allowlisted extension origin and signature headers. -/
def reqMixed : AuthReq :=
  { path := "/scrape", origin := some "chrome-extension://evil",
    clientIP := some "176.136.146.11", timestamp := some "1",
    nonce := some "n", signatureHeader := some "bad" }

/-- C3, witness at `reqMixed`. -/
theorem authenticateRequest_logical_or_witness :
    (authenticateRequest constHmac 0 reqMixed = true ↔
      (isValidChromeExtension constHmac 0 reqMixed = true ∨ isValidOrigin reqMixed = true ∨
       isValidReferer reqMixed = true ∨ isFromAllowedIP reqMixed = true ∨
       isGoogleCloudFunction reqMixed = true ∨ isFromGoogleCloud reqMixed = true))
    ∧ (∀ ip, reqMixed.clientIP = some ip → ALLOWED_IPS.contains ip = true →
        authenticateRequest constHmac 0 reqMixed = true)
    ∧ (∀ o2, reqMixed.origin = some o2 → jsStartsWith o2 chromeExtScheme = true →
        truthy reqMixed.timestamp = true → truthy reqMixed.nonce = true →
        truthy reqMixed.signatureHeader = true →
        verifyRequestSignature constHmac 0 (reqMixed.timestamp.getD "")
          (reqMixed.nonce.getD "") (reqMixed.signatureHeader.getD "")
          (extensionIdOf o2) = false →
        isValidChromeExtension constHmac 0 reqMixed = false) :=
  authenticateRequest_logical_or constHmac 0 reqMixed (by decide) (by decide)

/-- C4: any request to an enforced path whose X-Forwarded-For header — a
header an external caller sets freely — contains the substring `10.` or
`169.254.` anywhere is allowed by `authenticateRequest`, regardless of
every other signal (origin, referer, user agent, client IP, signature). -/
theorem forwardedFor_substring_bypass
    (hmac : String → String) (now : Int) (r : AuthReq) (s : String)
    (h1 : r.path ≠ "/health") (h2 : r.path ≠ "/")
    (hx : r.forwardedFor = some s)
    (hsub : jsIncludes s "10." = true ∨ jsIncludes s "169.254." = true) :
    authenticateRequest hmac now r = true := by
  have hpath : (r.path == "/health" || r.path == "/") = false := by
    simp [h1, h2]
  have hne : s.isEmpty = false := by
    rw [Bool.eq_false_iff]
    intro hemp
    have he : s = "" := (String.isEmpty_iff _).mp hemp
    rcases hsub with h | h <;> rw [he] at h <;> exact absurd h (by decide)
  have hf : isFromGoogleCloud r = true := by
    rcases hsub with h | h <;> simp [isFromGoogleCloud, hx, truthy, hne, h]
  simp only [authenticateRequest]
  rw [hpath]
  simp [hf]

/-- The request used to instantiate C4: hostile values on every signal
except a spoofed X-Forwarded-For containing `10.`. -/
def reqCloudSpoof : AuthReq :=
  { path := "/scrape", origin := some "https://evil.example",
    referer := some "https://evil.example/page", userAgent := some "curl/8.0",
    clientIP := some "203.0.113.5", realIP := some "203.0.113.5",
    forwardedFor := some "203.0.113.5, 10.9.9.9" }

/-- C4, witness at `reqCloudSpoof`. -/
theorem forwardedFor_substring_bypass_witness :
    authenticateRequest constHmac 0 reqCloudSpoof = true :=
  forwardedFor_substring_bypass constHmac 0 reqCloudSpoof "203.0.113.5, 10.9.9.9"
    (by decide) (by decide) rfl (Or.inl (by decide))

/-- C6: a POST /scrape request rejected by the authentication gate or by
URL validation performs no browser launch, opens no page and makes no
navigation attempt — the rejection resolves before any browser resource is
touched. -/
theorem rejected_scrape_touches_no_browser
    (hmac : String → String) (now : Int) (r : AuthReq) (connected : Bool)
    (o : BrowserOracle) (urlField : Option String) (url : String) (e : URLReject)
    (h : authenticateRequest hmac now r = false ∨
      (urlField = some url ∧ validateURL url = .error e)) :
    (scrapePipeline hmac now r connected o urlField).trace.launches = 0
    ∧ (scrapePipeline hmac now r connected o urlField).trace.pagesOpened = 0
    ∧ (scrapePipeline hmac now r connected o urlField).trace.navigations = 0 := by
  rcases h with h | ⟨rfl, hv⟩
  · simp [scrapePipeline, h]
  · cases ha : authenticateRequest hmac now r
    · simp [scrapePipeline, ha]
    · simp [scrapePipeline, ha, handleScrape, tryScrape, hv]

/-- The fully anonymous request used to instantiate C6. -/
def reqAnon : AuthReq := { path := "/scrape" }

/-- C6, witness: an anonymous denied request for the metadata-service URL. -/
theorem rejected_scrape_touches_no_browser_witness :
    (authenticateRequest constHmac 0 reqAnon = false ∨
      ((some "http://169.254.169.254/" : Option String) = some "http://169.254.169.254/"
        ∧ validateURL "http://169.254.169.254/" = .error .blockedHost))
    ∧ ((scrapePipeline constHmac 0 reqAnon true {}
          (some "http://169.254.169.254/")).trace.launches = 0
      ∧ (scrapePipeline constHmac 0 reqAnon true {}
          (some "http://169.254.169.254/")).trace.pagesOpened = 0
      ∧ (scrapePipeline constHmac 0 reqAnon true {}
          (some "http://169.254.169.254/")).trace.navigations = 0) :=
  ⟨Or.inl (by decide),
   rejected_scrape_touches_no_browser constHmac 0 reqAnon true {}
     (some "http://169.254.169.254/") "http://169.254.169.254/" .blockedHost
     (Or.inl (by decide))⟩

/-- The 9999-character and 10000-character plain texts used as witnesses. -/
def shortText : String := String.mk (List.replicate 9999 'a')

/-- See `shortText`. -/
def longText : String := String.mk (List.replicate 10000 'a')

/-- C9, witness at a 9999-character and a 10000-character plain text. -/
theorem scrape_length_policy_witness :
    ((handleScrape true { evaluateResult := some (some shortText) }
        (some "https://example.com")).status = 406
      ∧ (handleScrape true { evaluateResult := some (some shortText) }
        (some "https://example.com")).body = .errTooShort)
    ∧ ((handleScrape true { evaluateResult := some (some longText) }
        (some "https://example.com")).status = 200
      ∧ (handleScrape true { evaluateResult := some (some longText) }
        (some "https://example.com")).body = .okData longText) :=
  ⟨scrape_length_policy.1 shortText (replicate_a_not_protected 9999)
      (List.length_replicate 9999 'a'),
   scrape_length_policy.2 longText (replicate_a_not_protected 10000)
      (Nat.le_of_eq (List.length_replicate 10000 'a').symm)⟩

end PuppeteerGateway
